import Mathlib

/-!
Shallow embedding of the game logic in `src/GPTFlappyBird/src/FlappyBird.jsx`.

The component keeps all simulation state in mutable refs (`birdYRef`,
`birdVYRef`, `pipesRef`, `scoreRef`, `passedPipeIndexRef`, `lastSpawnRef`,
`lastTimeRef`, `gameStartedRef`, `pausedRef`, `gameOverRef`) plus the React
state `best`.  We model that state as a record `GameState`, JavaScript
numbers as exact rationals, and each handler (`resetGame`, `flap`,
`togglePause`) and the per-frame functions (`draw`, `loop`) as pure state
transformers.  `Math.random()` inside `spawnPipe` is modelled by an explicit
parameter `u ∈ [0,1)` threaded into the frame step.

The `best` value read inside `draw` (line 199 of the source,
`if (scoreRef.current > best)`) is the `useState` binding captured when the
running closure was created.  The keyboard handlers and the animation-frame
chain are registered once, on mount, by a `useEffect` with an empty
dependency array, so along the keyboard-driven path that binding remains the
value loaded at startup while `setBest` updates a separate current value.
We therefore pass the captured value explicitly as a parameter `bestCap` to
`draw`/`loop`, and keep the current (displayed / persisted) value as the
state field `best`.
-/

namespace Flappy

/- The `cfg` ref of the component: fixed world constants (never mutated). -/
namespace Cfg

def w : ℚ := 360
def h : ℚ := 640
def groundH : ℚ := 80
def gravity : ℚ := 1800
def jump : ℚ := -420
def pipeGap : ℚ := 160
def pipeW : ℚ := 70
def pipeSpeed : ℚ := 150
def spawnEvery : ℚ := 1400
def birdX : ℚ := 90
def birdR : ℚ := 14

end Cfg

/-- One obstacle, as pushed by `spawnPipe`: `{ x, topH }`. -/
structure Pipe where
  x : ℚ
  topH : ℚ
deriving DecidableEq

/-- The mutable refs of the component plus the `best` React state, gathered
into one record.  `score` and `passedPipeIndex` are the integer-valued refs
(`passedPipeIndex` only ever holds 0 or 1; pruning lowers it with
`Math.max(0, ·-1)`, which on `ℕ` is truncated subtraction). -/
structure GameState where
  birdY : ℚ
  birdVY : ℚ
  pipes : List Pipe
  score : ℕ
  passedPipeIndex : ℕ
  lastSpawn : ℚ
  lastTime : ℚ
  gameStarted : Bool
  paused : Bool
  gameOver : Bool
  best : ℚ
deriving DecidableEq

/-- `resetGame()` (source lines 46–58): reinitialises the bird, pipes, score,
passed flag, both timing refs, and the `gameOver`/`gameStarted` flags.
It does not touch `pausedRef` and does not touch `best`. -/
def resetGame (s : GameState) : GameState :=
  { s with
    birdY := Cfg.h / 2
    birdVY := 0
    pipes := []
    score := 0
    passedPipeIndex := 0
    lastSpawn := 0
    lastTime := 0
    gameOver := false
    gameStarted := false }

/-- `flap()` (source lines 60–69): on the first flap it marks the game
started and unpauses; flaps are ignored while game over; otherwise the
vertical velocity is set (not added) to the jump impulse. -/
def flap (s : GameState) : GameState :=
  let s1 := if s.gameStarted then s else { s with gameStarted := true, paused := false }
  if s1.gameOver then s1 else { s1 with birdVY := Cfg.jump }

/-- `togglePause()` (source lines 80–89): ignored unless started and not
over; flips `paused`; on resuming it zeroes `lastTimeRef` so the next
frame's `dt` does not include paused wall-clock time. -/
def togglePause (s : GameState) : GameState :=
  if ¬s.gameStarted ∨ s.gameOver then s
  else if s.paused then { s with paused := false, lastTime := 0 }
  else { s with paused := true }

/-- `spawnPipe(canvasH)` (source lines 91–97) with the `Math.random()` draw
made explicit as `u`: `topH = minTop + u * (maxTop - minTop)` with
`minTop = 60` and `maxTop = canvasH - groundH - pipeGap - 60`; the new pipe
is placed at `x = w + 40`. -/
def spawnPipe (u : ℚ) (canvasH : ℚ) : Pipe :=
  let minTop : ℚ := 60
  let maxTop : ℚ := canvasH - Cfg.groundH - Cfg.pipeGap - 60
  { x := Cfg.w + 40, topH := minTop + u * (maxTop - minTop) }

/-- The inner `circleRect` helper of `collides` (source lines 111–117):
clamp the circle centre into the rectangle and compare squared distances. -/
def circleRect (cx cy cr rx ry rw rh : ℚ) : Bool :=
  let nx := max rx (min cx (rx + rw))
  let ny := max ry (min cy (ry + rh))
  let dx := cx - nx
  let dy := cy - ny
  decide (dx * dx + dy * dy ≤ cr * cr)

/-- `collides(bx, by, r, pipe)` (source lines 99–131): the circle against the
top rectangle (field top down to `topH`) and the bottom rectangle (from
`topH + pipeGap` down to the ground band). -/
def collides (bx by' r : ℚ) (p : Pipe) : Bool :=
  circleRect bx by' r p.x 0 Cfg.pipeW p.topH ||
  circleRect bx by' r p.x (p.topH + Cfg.pipeGap) Cfg.pipeW
    (Cfg.h - Cfg.groundH - (p.topH + Cfg.pipeGap))

/-- The off-screen test of the prune loop's guard (source line 161):
the pipe's right edge is left of x = 0. -/
def offscreen (p : Pipe) : Bool :=
  decide (p.x + Cfg.pipeW < 0)

/-- The `while` loop of source lines 161–164: repeatedly drop the head pipe
while its right edge is left of the screen, each removal lowering
`passedPipeIndex` by `Math.max(0, ·-1)`. -/
def prunePipes : List Pipe → ℕ → List Pipe × ℕ
  | [], passed => ([], passed)
  | p :: ps, passed =>
    if p.x + Cfg.pipeW < 0 then prunePipes ps (passed - 1)
    else (p :: ps, passed)

/-- The scoring block of source lines 166–180, acting on the (pruned) pipe
list: if the bird's x is past the first pipe's right edge and the passed
flag is 0, increment the score and set the flag to 1; then, if the first
pipe's right edge is left of the bird's trailing edge, reset the flag to 0.
Returns the new `(score, passedPipeIndex)`. -/
def scoreStep (pipes : List Pipe) (passed : ℕ) (score : ℕ) : ℕ × ℕ :=
  match pipes with
  | [] => (score, passed)
  | first :: _ =>
    let hit := decide (Cfg.birdX > first.x + Cfg.pipeW) && decide (passed = 0)
    let score1 := if hit then score + 1 else score
    let passed1 := if hit then 1 else passed
    let passed2 := if first.x + Cfg.pipeW < Cfg.birdX - Cfg.birdR then 0 else passed1
    (score1, passed2)

/-- The state-mutating body of `draw`'s update branch (source lines 145–204),
run only when `gameStarted && !paused && !gameOver`: physics integration,
pipe movement, the spawn accumulator and possible spawn, the prune loop, the
scoring block, ground/ceiling and pipe collision checks, and the best-score
update on the transition to game over.  `bestCap` is the `best` binding
captured by the running closure (see the file comment); `u` is the
`Math.random()` draw used if a spawn fires. -/
def updateCore (bestCap dt u : ℚ) (s : GameState) : GameState :=
  let vy := s.birdVY + Cfg.gravity * dt
  let y := s.birdY + vy * dt
  let moved := s.pipes.map fun p => { p with x := p.x - Cfg.pipeSpeed * dt }
  let acc := s.lastSpawn + dt * 1000
  let doSpawn := decide (Cfg.spawnEvery ≤ acc)
  let acc2 := if doSpawn then 0 else acc
  let ps2 := if doSpawn then moved ++ [spawnPipe u Cfg.h] else moved
  let pruned := prunePipes ps2 s.passedPipeIndex
  let ps3 := pruned.1
  let sc := scoreStep ps3 pruned.2 s.score
  let hitBounds := decide (Cfg.h - Cfg.groundH ≤ y + Cfg.birdR) || decide (y - Cfg.birdR ≤ 0)
  let hitPipe := ps3.any fun p => collides Cfg.birdX y Cfg.birdR p
  let over2 := s.gameOver || hitBounds || hitPipe
  let best2 := if over2 && decide ((sc.1 : ℚ) > bestCap) then (sc.1 : ℚ) else s.best
  { s with
    birdY := y
    birdVY := vy
    pipes := ps3
    score := sc.1
    passedPipeIndex := sc.2
    lastSpawn := acc2
    gameOver := over2
    best := best2 }

/-- `draw(ctx, dt)` restricted to its effect on game state (source lines
133–260): the update branch runs only while started, unpaused and not over;
all other work in `draw` is rendering. -/
def draw (bestCap dt u : ℚ) (s : GameState) : GameState :=
  if s.gameStarted && !s.paused && !s.gameOver then updateCore bestCap dt u s else s

/-- The delta-time computation of `loop` (source lines 282–283): `dt = 0`
when `lastTimeRef` is 0 (JavaScript falsiness), otherwise the elapsed
seconds capped at 0.033. -/
def loopDt (ts : ℚ) (s : GameState) : ℚ :=
  if s.lastTime ≠ 0 then min (33 / 1000) ((ts - s.lastTime) / 1000) else 0

/-- `loop(ts)` restricted to its effect on game state (source lines
262–303): returns untouched while paused; otherwise computes `dt`, stores
the timestamp in `lastTimeRef`, and runs `draw`.  Canvas sizing, rendering
and frame rescheduling are elided. -/
def loop (bestCap ts u : ℚ) (s : GameState) : GameState :=
  if s.paused then s
  else draw bestCap (loopDt ts s) u { s with lastTime := ts }

/-- The physics integration step of source lines 147–148, on its own as the
spec's `integrate` contract: `velocity += gravity * dt` then
`position += velocity * dt`.  Returns `(position, velocity)`. -/
def integrate (y v g dt : ℚ) : ℚ × ℚ :=
  let v2 := v + g * dt
  (y + v2 * dt, v2)

/-- A JavaScript number as produced by `Number(…)`: finite, `NaN`, or an
infinity.  Only finiteness matters to the loader's guard. -/
inductive JSNum where
  | fin (q : ℚ)
  | nan
  | posInf
  | negInf
deriving DecidableEq

/-- `Number.isFinite` on the model. -/
def JSNum.isFinite : JSNum → Bool
  | .fin _ => true
  | _ => false

/-- A parse of an all-digits character run. -/
def parseDigits (cs : List Char) : Option ℕ :=
  if cs ≠ [] ∧ cs.all Char.isDigit then
    some (cs.foldl (fun a c => 10 * a + (c.toNat - 48)) 0)
  else none

/-- A parse of `digits` or `digits.digits` as an exact rational. -/
def parseDecimal (cs : List Char) : Option ℚ :=
  match cs.span (· ≠ '.') with
  | (intPart, []) => (parseDigits intPart).map fun n => (n : ℚ)
  | (intPart, _ :: fracPart) =>
    match parseDigits intPart, parseDigits fracPart with
    | some a, some b => some ((a : ℚ) + (b : ℚ) / (10 : ℚ) ^ fracPart.length)
    | _, _ => none

/-- Modelled from the spec: the host's string-to-number conversion
(`Number(s)` of the JavaScript runtime, which is not part of this
repository).  Simplified model: an optional sign, then `Infinity`, a decimal
numeral, or anything else (`NaN`); surrounding whitespace is not modelled. -/
def jsToNumber (s : String) : JSNum :=
  let cs := s.data
  let signed : Bool × List Char :=
    match cs with
    | '-' :: rest => (true, rest)
    | '+' :: rest => (false, rest)
    | _ => (false, cs)
  if signed.2 = "Infinity".data then
    if signed.1 then .negInf else .posInf
  else
    match parseDecimal signed.2 with
    | some q => .fin (if signed.1 then -q else q)
    | none => .nan

/-- The `best` initialiser (source lines 24–27):
`Number(localStorage.getItem("flappy_best") || 0)` guarded by
`Number.isFinite(v) ? v : 0`.  A missing key is `null` and an empty string
is falsy, so both fall back to `Number(0) = 0` before the conversion;
`toNum` is the host conversion applied to any other stored string. -/
def loadBest (toNum : String → JSNum) (stored : Option String) : ℚ :=
  let v : JSNum :=
    match stored with
    | none => .fin 0
    | some str => if str = "" then .fin 0 else toNum str
  match v with
  | .fin q => q
  | _ => 0

end Flappy

namespace Flappy

/- Concrete states used by the per-claim evaluation theorems. -/

/-- A mid-run state: one pipe whose right edge (75) already lies between the
left screen edge and the bird's trailing edge (76), passed flag clear. -/
def c1State : GameState :=
  { birdY := 320, birdVY := 0, pipes := [{ x := 5, topH := 200 }], score := 0,
    passedPipeIndex := 0, lastSpawn := 0, lastTime := 1000,
    gameStarted := true, paused := false, gameOver := false, best := 0 }

/-- Claim C1: the score increments once per obstacle.  At `c1State` the
single pipe's right edge has passed the bird's trailing edge, so the frame
update increments the score AND clears the passed flag again; the next frame
increments the score a second time for the same (still present) pipe. -/
theorem c1_scoring_double_counts :
    (draw 0 (1/100) 0 c1State).score = 1
      ∧ (draw 0 (1/100) 0 (draw 0 (1/100) 0 c1State)).score = 2
      ∧ (draw 0 (1/100) 0 (draw 0 (1/100) 0 c1State)).pipes = [{ x := 2, topH := 200 }] := by
  norm_num [draw, updateCore, prunePipes, scoreStep, spawnPipe, collides, circleRect,
    c1State, Cfg.w, Cfg.h, Cfg.groundH, Cfg.gravity, Cfg.jump, Cfg.pipeGap, Cfg.pipeW,
    Cfg.pipeSpeed, Cfg.spawnEvery, Cfg.birdX, Cfg.birdR]

/-- A second-run state late in a keyboard-driven session: current best is 5
(from the first run), this run's score is 3, the bird is about to hit the
ground.  The running closures were created on mount, so the `best` binding
they compare against is the startup value 0 (`bestCap = 0`). -/
def c2State : GameState :=
  { birdY := 550, birdVY := 0, pipes := [], score := 3,
    passedPipeIndex := 0, lastSpawn := 0, lastTime := 1000,
    gameStarted := true, paused := false, gameOver := false, best := 5 }

/-- Claim C2: best is non-decreasing.  On the transition to game over the
code compares the score against the closure-captured `best` (the startup
value 0), not the current best 5, so the best drops from 5 to 3. -/
theorem c2_best_score_decreases :
    c2State.best = 5 ∧ c2State.score = 3
      ∧ (draw 0 (1/100) 0 c2State).gameOver = true
      ∧ (draw 0 (1/100) 0 c2State).best = 3 := by
  norm_num [draw, updateCore, prunePipes, scoreStep, spawnPipe, collides, circleRect,
    c2State, Cfg.w, Cfg.h, Cfg.groundH, Cfg.gravity, Cfg.jump, Cfg.pipeGap, Cfg.pipeW,
    Cfg.pipeSpeed, Cfg.spawnEvery, Cfg.birdX, Cfg.birdR]

/-- Claim C3 (counterexample): integrating once with `dt = 1` versus twice
with `dt = 1/2` from rest under the game's gravity 1800 yields positions
450 px apart — far beyond any floating-point tolerance, so the claim's
universal statement over all `dt ≥ 0` fails. -/
theorem c3_half_step_tolerance_counterexample :
    (integrate (integrate 0 0 1800 (1/2)).1 (integrate 0 0 1800 (1/2)).2 1800 (1/2)).1
        - (integrate 0 0 1800 1).1 = -450
      ∧ ¬ |(integrate (integrate 0 0 1800 (1/2)).1 (integrate 0 0 1800 (1/2)).2 1800 (1/2)).1
        - (integrate 0 0 1800 1).1| ≤ 1 := by
  norm_num [integrate]

/-- Claim C3 (amended): the velocities agree exactly, and the two-half-step
position differs from the one-step position by exactly `g·dt²/4` — the
discrepancy is a real first-order-Euler effect, not a rounding artifact
(≤ 0.49005 px under the game's gravity 1800 and the loop's `dt` cap 0.033,
but unbounded over all `dt` and gravity). -/
theorem c3_half_step_exact_difference (y v g dt : ℚ) :
    (integrate (integrate y v g (dt/2)).1 (integrate y v g (dt/2)).2 g (dt/2)).2
        = (integrate y v g dt).2
      ∧ (integrate (integrate y v g (dt/2)).1 (integrate y v g (dt/2)).2 g (dt/2)).1
        = (integrate y v g dt).1 - g * dt^2 / 4 := by
  constructor
  · simp [integrate]; ring
  · simp [integrate]; ring

/-- Claim C4: every spawned obstacle keeps its gap 60 px clear of the field
top and the ground band: `60 ≤ topH` and
`topH + pipeGap ≤ h - groundH - 60`, for every random draw `u ∈ [0,1)`. -/
theorem c4_spawn_gap_bounds (u : ℚ) (h0 : 0 ≤ u) (h1 : u < 1) :
    60 ≤ (spawnPipe u Cfg.h).topH
      ∧ (spawnPipe u Cfg.h).topH + Cfg.pipeGap ≤ Cfg.h - Cfg.groundH - 60 := by
  simp only [spawnPipe, Cfg.h, Cfg.groundH, Cfg.pipeGap]
  constructor <;> nlinarith

/-- Witness for C4 at the concrete draw `u = 1/2`. -/
theorem c4_spawn_gap_bounds_witness :
    60 ≤ (spawnPipe (1/2) Cfg.h).topH
      ∧ (spawnPipe (1/2) Cfg.h).topH + Cfg.pipeGap ≤ Cfg.h - Cfg.groundH - 60 :=
  c4_spawn_gap_bounds (1/2) (by norm_num) (by norm_num)

end Flappy

namespace Flappy

/-- Claim C5: on a pipe list sorted ascending by x (the documented
invariant), the prune loop removes exactly the off-screen pipes: the result
is the list filtered to on-screen pipes, it is a suffix of the input (never
removed from the middle), and the length drops by exactly one per off-screen
pipe. -/
theorem c5_prune_exact (l : List Pipe) (n : ℕ)
    (hsort : l.Pairwise fun a b => a.x ≤ b.x) :
    (prunePipes l n).1 = l.filter (fun p => !offscreen p)
      ∧ (prunePipes l n).1.IsSuffix l
      ∧ l.length = (prunePipes l n).1.length + (l.filter offscreen).length := by
  induction l generalizing n with
  | nil => simp [prunePipes]
  | cons p ps ih =>
    rcases List.pairwise_cons.mp hsort with ⟨hp, hps⟩
    by_cases hoff : p.x + Cfg.pipeW < 0
    · have hofb : offscreen p = true := by simp [offscreen, hoff]
      obtain ⟨h1, h2, h3⟩ := ih (n - 1) hps
      refine ⟨?_, ?_, ?_⟩
      · simp [prunePipes, hoff, List.filter_cons, hofb, h1]
      · have : (prunePipes (p :: ps) n).1 = (prunePipes ps (n - 1)).1 := by
          simp [prunePipes, hoff]
        rw [this]
        exact h2.trans (List.suffix_cons p ps)
      · simp only [prunePipes, if_pos hoff, List.length_cons, List.filter_cons, hofb,
          ite_true, List.length_cons]
        omega
    · have hall : ∀ q ∈ p :: ps, (!offscreen q) = true := by
        intro q hq
        rcases List.mem_cons.mp hq with h | h
        · subst h; simp [offscreen, hoff]
        · have hx := hp q h
          have : ¬ q.x + Cfg.pipeW < 0 := by
            intro hc
            exact hoff (by linarith)
          simp [offscreen, this]
      refine ⟨?_, ?_, ?_⟩
      · rw [List.filter_eq_self.mpr hall]
        simp [prunePipes, hoff]
      · simp only [prunePipes, if_neg hoff]
        exact List.suffix_refl _
      · have hnil : (p :: ps).filter offscreen = [] := by
          rw [List.filter_eq_nil_iff]
          intro q hq
          have := hall q hq
          simp at this
          simp [this]
        simp [prunePipes, hoff, hnil]

/-- Witness for C5: a sorted list with two off-screen pipes and one
on-screen pipe; pruning drops exactly the two leading off-screen ones. -/
theorem c5_prune_exact_witness :
    (prunePipes [⟨-100, 200⟩, ⟨-80, 200⟩, ⟨50, 200⟩] 1).1
        = ([⟨-100, 200⟩, ⟨-80, 200⟩, ⟨50, 200⟩] : List Pipe).filter (fun p => !offscreen p)
      ∧ (prunePipes [⟨-100, 200⟩, ⟨-80, 200⟩, ⟨50, 200⟩] 1).1.IsSuffix
          [⟨-100, 200⟩, ⟨-80, 200⟩, ⟨50, 200⟩]
      ∧ ([⟨-100, 200⟩, ⟨-80, 200⟩, ⟨50, 200⟩] : List Pipe).length
        = (prunePipes [⟨-100, 200⟩, ⟨-80, 200⟩, ⟨50, 200⟩] 1).1.length
          + (([⟨-100, 200⟩, ⟨-80, 200⟩, ⟨50, 200⟩] : List Pipe).filter offscreen).length :=
  c5_prune_exact [⟨-100, 200⟩, ⟨-80, 200⟩, ⟨50, 200⟩] 1 (by
    refine List.pairwise_cons.mpr ⟨?_, List.pairwise_cons.mpr ⟨?_, ?_⟩⟩ <;>
      simp <;> norm_num)

end Flappy

namespace Flappy

/-- Claim C6: game over is terminal.  In any started game-over state, `flap`
and `togglePause` are exact no-ops, a `loop` tick only records the timestamp
(no physics, obstacle, score or flag change — and nothing at all while
paused), and `resetGame` is what clears `gameOver`, returning to the
not-started state. -/
theorem c6_over_terminal (s : GameState) (hov : s.gameOver = true)
    (hst : s.gameStarted = true) :
    flap s = s ∧ togglePause s = s
      ∧ (∀ bc ts u, loop bc ts u s = if s.paused then s else { s with lastTime := ts })
      ∧ (resetGame s).gameOver = false ∧ (resetGame s).gameStarted = false := by
  refine ⟨?_, ?_, ?_, rfl, rfl⟩
  · simp [flap, hst, hov]
  · simp [togglePause, hov]
  · intro bc ts u
    by_cases hps : s.paused
    · simp [loop, hps]
    · simp [loop, hps, draw, hov]

/-- A started game-over state. -/
def c6State : GameState :=
  { birdY := 320, birdVY := 100, pipes := [{ x := 120, topH := 200 }], score := 2,
    passedPipeIndex := 0, lastSpawn := 300, lastTime := 500,
    gameStarted := true, paused := false, gameOver := true, best := 2 }

/-- Witness for C6 at the concrete game-over state `c6State`. -/
theorem c6_over_terminal_witness :
    flap c6State = c6State ∧ togglePause c6State = c6State
      ∧ (∀ bc ts u, loop bc ts u c6State
          = if c6State.paused then c6State else { c6State with lastTime := ts })
      ∧ (resetGame c6State).gameOver = false
      ∧ (resetGame c6State).gameStarted = false :=
  c6_over_terminal c6State rfl rfl

/-- A paused mid-run state with a nonzero score and a pending pipe. -/
def c7State : GameState :=
  { birdY := 250, birdVY := -50, pipes := [{ x := 180, topH := 150 }], score := 4,
    passedPipeIndex := 1, lastSpawn := 700, lastTime := 900,
    gameStarted := true, paused := true, gameOver := true, best := 4 }

/-- Claim C7 (counterexample): `resetGame` does not clear the paused flag —
resetting from a paused state leaves `paused = true`. -/
theorem c7_reset_keeps_paused_counterexample :
    c7State.paused = true ∧ (resetGame c7State).paused = true :=
  ⟨rfl, rfl⟩

/-- Claim C7 (amended): from any state, `resetGame` zeroes the score, marks
the game not started, empties the pipe list, recentres the bird with zero
velocity, zeroes the spawn accumulator and the timestamp, clears the
game-over and passed flags, and leaves `best` unchanged — but it leaves the
paused flag unchanged rather than clearing it (the flag is cleared by the
first flap instead). -/
theorem c7_reset_fields (s : GameState) :
    (resetGame s).score = 0 ∧ (resetGame s).gameStarted = false
      ∧ (resetGame s).pipes = [] ∧ (resetGame s).birdY = Cfg.h / 2
      ∧ (resetGame s).birdVY = 0 ∧ (resetGame s).lastSpawn = 0
      ∧ (resetGame s).lastTime = 0 ∧ (resetGame s).passedPipeIndex = 0
      ∧ (resetGame s).gameOver = false ∧ (resetGame s).best = s.best
      ∧ (resetGame s).paused = s.paused :=
  ⟨rfl, rfl, rfl, rfl, rfl, rfl, rfl, rfl, rfl, rfl, rfl⟩

/-- Claim C8: a tick delivered while paused or before the game has started
leaves the bird's position and velocity, the pipe list (hence every
obstacle's position), the score and the spawn accumulator unchanged, for any
timestamp. -/
theorem c8_paused_tick_frozen (s : GameState)
    (hp : s.paused = true ∨ s.gameStarted = false) (bc ts u : ℚ) :
    (loop bc ts u s).birdY = s.birdY ∧ (loop bc ts u s).birdVY = s.birdVY
      ∧ (loop bc ts u s).pipes = s.pipes ∧ (loop bc ts u s).score = s.score
      ∧ (loop bc ts u s).lastSpawn = s.lastSpawn := by
  by_cases hps : s.paused
  · simp [loop, hps]
  · have hst : s.gameStarted = false := by
      rcases hp with h | h
      · exact absurd h hps
      · exact h
    simp [loop, hps, draw, hst]

/-- A paused mid-run state. -/
def c8State : GameState :=
  { birdY := 300, birdVY := 80, pipes := [{ x := 200, topH := 120 }], score := 1,
    passedPipeIndex := 0, lastSpawn := 400, lastTime := 650,
    gameStarted := true, paused := true, gameOver := false, best := 3 }

/-- Witness for C8 at the concrete paused state `c8State` and timestamp 9999. -/
theorem c8_paused_tick_frozen_witness :
    (loop 0 9999 0 c8State).birdY = c8State.birdY
      ∧ (loop 0 9999 0 c8State).birdVY = c8State.birdVY
      ∧ (loop 0 9999 0 c8State).pipes = c8State.pipes
      ∧ (loop 0 9999 0 c8State).score = c8State.score
      ∧ (loop 0 9999 0 c8State).lastSpawn = c8State.lastSpawn :=
  c8_paused_tick_frozen c8State (Or.inl rfl) 0 9999 0

end Flappy

namespace Flappy

/-- Claim C9: loading the best score never propagates a fault.  For any host
string-to-number conversion `toNum`: a missing value loads as 0, any stored
string whose conversion is not a finite number loads as 0, and a nonempty
string converting to a finite value loads as that value; in particular with
the modelled conversion, `"abc"`, `"Infinity"` and `""` load as 0 and
`"42"` loads as 42. -/
theorem c9_load_best_total (toNum : String → JSNum) :
    loadBest toNum none = 0
      ∧ (∀ str, (toNum str).isFinite = false → loadBest toNum (some str) = 0)
      ∧ (∀ str q, toNum str = JSNum.fin q → str ≠ "" → loadBest toNum (some str) = q)
      ∧ loadBest jsToNumber (some "abc") = 0
      ∧ loadBest jsToNumber (some "Infinity") = 0
      ∧ loadBest jsToNumber (some "") = 0
      ∧ loadBest jsToNumber (some "42") = 42 := by
  refine ⟨rfl, ?_, ?_, rfl, rfl, rfl, rfl⟩
  · intro str hf
    by_cases he : str = ""
    · simp [loadBest, he]
    · simp only [loadBest, if_neg he]
      cases htn : toNum str
      · rw [htn] at hf; simp [JSNum.isFinite] at hf
      · rfl
      · rfl
      · rfl
  · intro str q htn he
    simp [loadBest, he, htn]

/-- Witness for C9: the universally quantified parts applied to the modelled
conversion at the concrete non-finite loads `"Infinity"` and the finite load
`"7"`. -/
theorem c9_load_best_total_witness :
    loadBest jsToNumber (some "Infinity") = 0 ∧ loadBest jsToNumber (some "7") = 7 :=
  ⟨(c9_load_best_total jsToNumber).2.1 "Infinity" rfl,
   (c9_load_best_total jsToNumber).2.2.1 "7" 7 rfl (by simp)⟩

/-- The bird and pipes are untouched by an update with `dt = 0`, given the
running invariants that the spawn accumulator is below the spawn interval
and no pipe is already off screen (both hold after a reset and are
re-established by every running frame). -/
theorem updateCore_zero_dt (bc u : ℚ) (s : GameState)
    (hsp : s.lastSpawn < Cfg.spawnEvery)
    (hpi : ∀ p ∈ s.pipes, 0 ≤ p.x + Cfg.pipeW) :
    (updateCore bc 0 u s).birdY = s.birdY ∧ (updateCore bc 0 u s).birdVY = s.birdVY
      ∧ (updateCore bc 0 u s).pipes = s.pipes := by
  have hmap : s.pipes.map (fun p => { p with x := p.x - Cfg.pipeSpeed * 0 }) = s.pipes := by
    have : (fun p : Pipe => { p with x := p.x - Cfg.pipeSpeed * 0 }) = id := by
      funext p
      simp
    rw [this, List.map_id]
  have hacc : s.lastSpawn + 0 * 1000 = s.lastSpawn := by ring
  have hds : decide (Cfg.spawnEvery ≤ s.lastSpawn) = false :=
    decide_eq_false (not_le.mpr hsp)
  have hprune : prunePipes s.pipes s.passedPipeIndex = (s.pipes, s.passedPipeIndex) := by
    cases hps : s.pipes with
    | nil => rfl
    | cons p ps =>
      have h0 : ¬ p.x + Cfg.pipeW < 0 := not_lt.mpr (hpi p (by simp [hps]))
      simp [prunePipes, h0]
  simp only [updateCore, hmap, hacc, hds, Bool.false_eq_true, if_false, hprune]
  refine ⟨by ring, by ring, trivial⟩

/-- Claim C10: whenever the stored last-timestamp reference is zero (as it
is on the first tick after a reset and on the first tick after resuming),
an unpaused tick computes `dt = 0` for every incoming timestamp, and — under
the running invariants on the spawn accumulator and pipe positions — leaves
the bird's position and velocity and the entire pipe list (hence every
obstacle's horizontal position) unchanged. -/
theorem c10_zero_dt_first_tick (s : GameState) (h0 : s.lastTime = 0)
    (hp : s.paused = false) (hsp : s.lastSpawn < Cfg.spawnEvery)
    (hpi : ∀ p ∈ s.pipes, 0 ≤ p.x + Cfg.pipeW) (bc ts u : ℚ) :
    loopDt ts s = 0
      ∧ (loop bc ts u s).birdY = s.birdY
      ∧ (loop bc ts u s).birdVY = s.birdVY
      ∧ (loop bc ts u s).pipes = s.pipes := by
  have hdt : loopDt ts s = 0 := by simp [loopDt, h0]
  refine ⟨hdt, ?_⟩
  have hloop : loop bc ts u s = draw bc 0 u { s with lastTime := ts } := by
    rw [loop, if_neg (by simp [hp]), hdt]
  rw [hloop, draw]
  cases hg1 : s.gameStarted with
  | false =>
    rw [if_neg (by simp [hg1])]
    exact ⟨rfl, rfl, rfl⟩
  | true =>
    cases hg2 : s.gameOver with
    | true =>
      rw [if_neg (by simp [hg2])]
      exact ⟨rfl, rfl, rfl⟩
    | false =>
      rw [if_pos (by simp [hg1, hg2, hp])]
      exact updateCore_zero_dt bc u { s with lastTime := ts } hsp hpi

/-- A state just after a reset followed by a first flap: empty pipes, zero
accumulator, zero stored timestamp. -/
def c10State : GameState :=
  { birdY := 320, birdVY := -420, pipes := [], score := 0,
    passedPipeIndex := 0, lastSpawn := 0, lastTime := 0,
    gameStarted := true, paused := false, gameOver := false, best := 0 }

/-- Witness for C10 at the concrete state `c10State` and timestamp 12345. -/
theorem c10_zero_dt_first_tick_witness :
    loopDt 12345 c10State = 0
      ∧ (loop 0 12345 0 c10State).birdY = c10State.birdY
      ∧ (loop 0 12345 0 c10State).birdVY = c10State.birdVY
      ∧ (loop 0 12345 0 c10State).pipes = c10State.pipes :=
  c10_zero_dt_first_tick c10State rfl rfl (by norm_num [c10State, Cfg.spawnEvery])
    (by simp [c10State]) 0 12345 0

end Flappy
